import Mathlib

/-!
# Verification of the Crime Data Explorer pipeline

A shallow embedding of `StreamlitANDploty3.py`: the loaders (`load_data`,
`load_geocodes`), the address-key construction, the left join of geocodes
onto incidents, the crime-type/city filter stage, and the mapped/unmapped
coverage partition.

Tables parsed from CSV are modelled as lists of rows; a cell is an
`Option String`, with `none` playing the role of pandas `NaN`.
-/

set_option autoImplicit false

namespace CrimeData

/-- A cell of a parsed CSV table; `none` models pandas `NaN` (missing value). -/
abbrev Cell := Option String

/-- pandas `astype(str)` on a cell: a string is unchanged, `NaN` renders as the
literal text `"nan"`. -/
def cellToStr : Cell → String
  | some s => s
  | none => "nan"

/-- Leading-whitespace removal on a character list. -/
def dropWS (l : List Char) : List Char := l.dropWhile Char.isWhitespace

/-- Python `str.strip` / pandas `.str.strip()` on a character list: remove
leading and trailing whitespace. -/
def stripList (l : List Char) : List Char :=
  ((dropWS l).reverse |> dropWS).reverse

/-- Python `str.strip` on a string. -/
def strip (s : String) : String := ⟨stripList s.data⟩

/-- A raw CSV row: an association list from column name to cell; a column
absent from the row reads as `NaN`, as `read_csv` fills missing values. -/
abbrev Row := List (String × Cell)

/-- Column access within a row. -/
def getCell (r : Row) (c : String) : Cell :=
  match r.find? (fun p => p.1 == c) with
  | some p => p.2
  | none => none

/-- A raw parsed CSV table: its column names and its rows. -/
structure RawTable where
  columns : List String
  rows : List Row

/-- The error outcomes of the two loaders: `keyError c` models the pandas
`KeyError` raised by `df[c]` when column `c` is absent; `schemaError missing`
models the `ValueError` raised at line 39 of the source, carrying the sorted
list of missing required columns. -/
inductive LoadError where
  | keyError (col : String)
  | schemaError (missing : List String)
deriving DecidableEq

/-- A timestamp as produced by `pd.to_datetime` on the `YYYY-MM-DD HH:MM`
strings of this dataset. -/
structure Timestamp where
  year : Nat
  month : Nat
  day : Nat
  hour : Nat
  minute : Nat
deriving DecidableEq

/-- The numeric value of a digit character, `none` on a non-digit. -/
def digitVal (c : Char) : Option Nat :=
  if c.isDigit then some (c.toNat - 48) else none

/-- Models the parse done by `pd.to_datetime` on a `"YYYY-MM-DD HH:MM"` string: any
shape or range violation yields `none`. -/
def parseTimestamp (s : String) : Option Timestamp :=
  match s.data with
  | [y1, y2, y3, y4, '-', m1, m2, '-', d1, d2, ' ', h1, h2, ':', n1, n2] => do
      let y1 ← digitVal y1
      let y2 ← digitVal y2
      let y3 ← digitVal y3
      let y4 ← digitVal y4
      let m1 ← digitVal m1
      let m2 ← digitVal m2
      let d1 ← digitVal d1
      let d2 ← digitVal d2
      let h1 ← digitVal h1
      let h2 ← digitVal h2
      let n1 ← digitVal n1
      let n2 ← digitVal n2
      let mo := 10 * m1 + m2
      let da := 10 * d1 + d2
      let ho := 10 * h1 + h2
      let mi := 10 * n1 + n2
      if 1 ≤ mo ∧ mo ≤ 12 ∧ 1 ≤ da ∧ da ≤ 31 ∧ ho < 24 ∧ mi < 60 then
        some ⟨1000 * y1 + 100 * y2 + 10 * y3 + y4, mo, da, ho, mi⟩
      else
        none
  | _ => none

/-- Pandas `df["date"] + " " + df["time"]` on one row: pandas propagates `NaN`
through object-dtype string concatenation. -/
def combineDateTime (d t : Cell) : Cell :=
  match d, t with
  | some d, some t => some (d ++ " " ++ t)
  | _, _ => none

/-- Pandas `pd.to_datetime(cell, errors="coerce")`: `NaN` and unparseable strings
both become `NaT` (`none`); no error is ever raised. -/
def toDatetimeCoerce (c : Cell) : Option Timestamp :=
  match c with
  | some s => parseTimestamp s
  | none => none

/-- One incident record after `load_data`: the raw columns the app uses,
plus the derived `datetime` and `full_address`. -/
structure IncidentRow where
  datetime : Option Timestamp
  crime_type : Cell
  city : Cell
  state : Cell
  location_description : Cell
  victim_age : Cell
  victim_gender : Cell
  victim_race : Cell
  full_address : String
deriving DecidableEq

/-- The per-row body of `load_data` (source lines 17-24): build the
`datetime` with coercing parse and the `full_address` key by
strip-and-join of the string renderings of the three constituent fields. -/
def loadRow (r : Row) : IncidentRow where
  datetime := toDatetimeCoerce (combineDateTime (getCell r "date") (getCell r "time"))
  crime_type := getCell r "crime_type"
  city := getCell r "city"
  state := getCell r "state"
  location_description := getCell r "location_description"
  victim_age := getCell r "victim_age"
  victim_gender := getCell r "victim_gender"
  victim_race := getCell r "victim_race"
  full_address :=
    strip (cellToStr (getCell r "location_description")) ++ ", " ++
    strip (cellToStr (getCell r "city")) ++ ", " ++
    strip (cellToStr (getCell r "state"))

/-- Function `load_data` (source lines 13-26): accessing `df["date"]`, `df["time"]`,
`df["location_description"]`, `df["city"]`, `df["state"]` raises `KeyError`
when the column is absent; otherwise every row is transformed by `loadRow`
and no other failure is possible. -/
def load_data (t : RawTable) : Except LoadError (List IncidentRow) :=
  if "date" ∉ t.columns then .error (.keyError "date")
  else if "time" ∉ t.columns then .error (.keyError "time")
  else if "location_description" ∉ t.columns then .error (.keyError "location_description")
  else if "city" ∉ t.columns then .error (.keyError "city")
  else if "state" ∉ t.columns then .error (.keyError "state")
  else .ok (t.rows.map loadRow)

/-- One geocode entry after `load_geocodes`: exactly the three projected
columns; `lat`/`lon` are kept as raw cells (a CSV may leave them blank). -/
structure GeoRow where
  full_address : String
  lat : Cell
  lon : Cell
deriving DecidableEq

/-- The per-row body of `load_geocodes`: normalize the key by
`astype(str).str.strip()` and project the three columns. -/
def loadGeoRow (r : Row) : GeoRow where
  full_address := strip (cellToStr (getCell r "full_address"))
  lat := getCell r "lat"
  lon := getCell r "lon"

/-- The sorted list of required geocode columns missing from `t`, as
computed by `sorted({"full_address", "lat", "lon"} - set(geo.columns))`:
filtering the alphabetically sorted required list keeps the result sorted. -/
def missingGeoCols (t : RawTable) : List String :=
  ["full_address", "lat", "lon"].filter (fun c => !(t.columns.contains c))

/-- Function `load_geocodes` (source lines 29-41), modelled in the statement
order of the source: the key normalization `geo["full_address"] = ...` at line 33 runs
BEFORE the schema check at lines 36-39, so a table without a `full_address`
column raises `KeyError` there; only afterwards is the missing-column
`ValueError` raised; finally the three columns are returned. -/
def load_geocodes (t : RawTable) : Except LoadError (List GeoRow) :=
  if "full_address" ∉ t.columns then .error (.keyError "full_address")
  else if missingGeoCols t ≠ [] then .error (.schemaError (missingGeoCols t))
  else .ok (t.rows.map loadGeoRow)

/-- An enriched record: an incident row plus the optional coordinates
contributed by the join. -/
structure EnrichedRow where
  inc : IncidentRow
  lat : Cell
  lon : Cell
deriving DecidableEq

/-- The geocode entries whose (normalized) key equals `key`, in table order. -/
def geoMatches (geo : List GeoRow) (key : String) : List GeoRow :=
  geo.filter (fun g => g.full_address == key)

/-- The rows the left join contributes for one incident row: one copy per
matching geocode entry, in right-table order, taking the `lat`/`lon` of
that entry; a single copy with `NaN` coordinates when nothing matches. -/
def enrichGroup (geo : List GeoRow) (r : IncidentRow) : List EnrichedRow :=
  match geoMatches geo r.full_address with
  | [] => [⟨r, none, none⟩]
  | ms => ms.map (fun g => ⟨r, g.lat, g.lon⟩)

/-- Pandas `df.merge(geo, on="full_address", how="left")` (source line 52): every
left row is kept in order and contributes its `enrichGroup`. -/
def leftMerge (df : List IncidentRow) (geo : List GeoRow) : List EnrichedRow :=
  df.flatMap (enrichGroup geo)

/-- Pandas `f["crime_type"] == choice` on one row: pandas equality against a
scalar is `False` on `NaN`. -/
def cellEqStr (c : Cell) (s : String) : Bool := c == some s

/-- The filter stage (source lines 64-68): each of the two selectors, when
not the sentinel `"All"`, keeps the rows whose field equals it. -/
def applyFilters (df : List EnrichedRow) (crime city : String) : List EnrichedRow :=
  let f := df
  let f := if crime ≠ "All" then f.filter (fun r => cellEqStr r.inc.crime_type crime) else f
  if city ≠ "All" then f.filter (fun r => cellEqStr r.inc.city city) else f

/-- Pandas `dropna(subset=["lat", "lon"])` keeps a row iff both coordinates are
present. -/
def hasCoords (r : EnrichedRow) : Bool := r.lat.isSome && r.lon.isSome

/-- Table `mapped_df` (source line 71): the filtered rows with both coordinates. -/
def mapped_df (f : List EnrichedRow) : List EnrichedRow := f.filter hasCoords

/-- Table `unmapped_df` (source line 72): the filtered rows with `lat` or `lon`
missing. -/
def unmapped_df (f : List EnrichedRow) : List EnrichedRow :=
  f.filter (fun r => !r.lat.isSome || !r.lon.isSome)

/-! ### Auxiliary predicates used to state the claims -/

/-- A character list consisting of whitespace only. -/
def OnlyWS (l : List Char) : Prop := ∀ c ∈ l, c.isWhitespace

/-- Holds when `res` is obtained from `orig` by removing only leading and trailing
whitespace: the characters of `res` occur contiguously and unchanged
(in particular with unchanged case) inside `orig`, flanked by whitespace. -/
def TrimmedEnds (orig res : String) : Prop :=
  ∃ p q, OnlyWS p ∧ OnlyWS q ∧ orig.data = p ++ res.data ++ q

/-- Checks whether `pat` is a leading segment of `l`. -/
def startsWith : List Char → List Char → Bool
  | [], _ => true
  | _ :: _, [] => false
  | p :: ps, c :: cs => p == c && startsWith ps cs

/-- Checks whether `pat` occurs contiguously somewhere in `l`. -/
def containsSeq (pat : List Char) : List Char → Bool
  | [] => startsWith pat []
  | c :: cs => startsWith pat (c :: cs) || containsSeq pat cs

/-- Modelled from the spec: a record passes the filter stage iff
`(selector is "All" OR record.field == selector)` for both fields
independently.  Stated as the spec words it, to be compared with
`applyFilters` as translated from the source. -/
def passesSpec (crime city : String) (r : EnrichedRow) : Bool :=
  ((crime == "All") || cellEqStr r.inc.crime_type crime) &&
  ((city == "All") || cellEqStr r.inc.city city)

/-! ### Concrete fixtures used in the closed theorems -/

/-- An incident row as produced by `load_data` on the end-to-end scenario
row of the spec. -/
def exIncident : IncidentRow where
  datetime := some ⟨2024, 1, 1, 10, 0⟩
  crime_type := some "Theft"
  city := some "Springfield"
  state := some "IL"
  location_description := some "123 Main St"
  victim_age := none
  victim_gender := none
  victim_race := none
  full_address := "123 Main St, Springfield, IL"

/-- A second incident row whose key matches no geocode fixture. -/
def exIncident2 : IncidentRow where
  datetime := none
  crime_type := some "Assault"
  city := some "Shelbyville"
  state := some "IL"
  location_description := some "9 Elm St"
  victim_age := none
  victim_gender := none
  victim_race := none
  full_address := "9 Elm St, Shelbyville, IL"

/-- A geocode entry matching the key of `exIncident`. -/
def exGeoDup1 : GeoRow := ⟨"123 Main St, Springfield, IL", some "39.8", some "-89.6"⟩

/-- A second geocode entry with the same key as `exGeoDup1` but other
coordinates. -/
def exGeoDup2 : GeoRow := ⟨"123 Main St, Springfield, IL", some "40.0", some "-90.0"⟩

/-- A geocode entry matching the key of `exIncident` but with a blank `lon`
cell. -/
def exGeoHalf : GeoRow := ⟨"123 Main St, Springfield, IL", some "39.8", none⟩

/-- A raw geocode CSV row with all three required columns. -/
def exGeoRaw : Row :=
  [("full_address", some " 123 Main St, Springfield, IL "),
   ("lat", some "39.8"), ("lon", some "-89.6")]

/-- A raw incident row whose `date` cell is malformed and whose `time`
cell is blank. -/
def exMalRow : Row :=
  [("date", some "notadate"), ("time", none), ("city", some "Springfield")]

/-- An incident table holding only `exMalRow`. -/
def exMalTable : RawTable :=
  ⟨["date", "time", "location_description", "city", "state"], [exMalRow]⟩

/-- A raw incident row with whitespace-padded key fields. -/
def exKeyRow : Row :=
  [("location_description", some "  123 Main St "), ("city", some "Springfield"),
   ("state", some " IL "), ("date", some "2024-01-01"), ("time", some "10:00")]

/-- An enriched row with both coordinates present. -/
def exEnr1 : EnrichedRow := ⟨exIncident, some "39.8", some "-89.6"⟩

/-- An enriched row with both coordinates absent. -/
def exEnr2 : EnrichedRow := ⟨exIncident2, none, none⟩

/-- A raw incident row whose `state` cell is blank. -/
def exNanRow : Row :=
  [("location_description", some "123 Main St"), ("city", some "Springfield"),
   ("state", none), ("date", some "2024-01-01"), ("time", some "10:00")]

/-! ### Helper lemmas -/

lemma data_append (s t : String) : (s ++ t).data = s.data ++ t.data := rfl

lemma length_filter_add_length_filter_not {α : Type*} (p : α → Bool) (l : List α) :
    (l.filter p).length + (l.filter (fun a => !(p a))).length = l.length := by
  induction l with
  | nil => rfl
  | cons a l ih => cases h : p a <;> simp [List.filter_cons, h] <;> omega

lemma stripList_decomp (l : List Char) :
    ∃ p q, OnlyWS p ∧ OnlyWS q ∧ l = p ++ stripList l ++ q := by
  refine ⟨l.takeWhile Char.isWhitespace,
    ((dropWS l).reverse.takeWhile Char.isWhitespace).reverse, ?_, ?_, ?_⟩
  · intro c hc; exact List.mem_takeWhile_imp hc
  · intro c hc
    rw [List.mem_reverse] at hc
    exact List.mem_takeWhile_imp hc
  · have h1 : l.takeWhile Char.isWhitespace ++ dropWS l = l :=
      List.takeWhile_append_dropWhile ..
    have h2 : (dropWS l).reverse.takeWhile Char.isWhitespace ++ dropWS (dropWS l).reverse
        = (dropWS l).reverse := List.takeWhile_append_dropWhile ..
    have h3 : dropWS l
        = stripList l ++ ((dropWS l).reverse.takeWhile Char.isWhitespace).reverse := by
      have := congrArg List.reverse h2
      rw [List.reverse_append, List.reverse_reverse] at this
      exact this.symm
    calc l = l.takeWhile Char.isWhitespace ++ dropWS l := h1.symm
    _ = l.takeWhile Char.isWhitespace
        ++ (stripList l ++ ((dropWS l).reverse.takeWhile Char.isWhitespace).reverse) := by
          rw [← h3]
    _ = l.takeWhile Char.isWhitespace ++ stripList l
        ++ ((dropWS l).reverse.takeWhile Char.isWhitespace).reverse := by
          rw [List.append_assoc]

lemma strip_data (s : String) : (strip s).data = stripList s.data := rfl

lemma startsWith_self_append (p y : List Char) : startsWith p (p ++ y) = true := by
  induction p with
  | nil => rfl
  | cons c cs ih => simpa [startsWith] using ih

lemma containsSeq_nil_pat (l : List Char) : containsSeq [] l = true := by
  cases l <;> simp [containsSeq, startsWith]

lemma containsSeq_self_append (pat y : List Char) : containsSeq pat (pat ++ y) = true := by
  cases pat with
  | nil => simpa using containsSeq_nil_pat y
  | cons p ps =>
    simp only [List.cons_append, containsSeq, Bool.or_eq_true]
    exact Or.inl (startsWith_self_append (p :: ps) y)

lemma containsSeq_append_left (pat a b : List Char) (h : containsSeq pat b = true) :
    containsSeq pat (a ++ b) = true := by
  induction a with
  | nil => simpa using h
  | cons c cs ih => simp [containsSeq, ih]

lemma geoMatches_cons_pos (g : GeoRow) (gs : List GeoRow) (k : String)
    (h : g.full_address = k) : geoMatches (g :: gs) k = g :: geoMatches gs k := by
  simp [geoMatches, List.filter_cons, h]

lemma geoMatches_cons_neg (g : GeoRow) (gs : List GeoRow) (k : String)
    (h : ¬g.full_address = k) : geoMatches (g :: gs) k = geoMatches gs k := by
  simp [geoMatches, List.filter_cons, h]

lemma length_geoMatches_le_one (geo : List GeoRow) (k : String)
    (h : (geo.map GeoRow.full_address).Nodup) : (geoMatches geo k).length ≤ 1 := by
  induction geo with
  | nil => simp [geoMatches]
  | cons g gs ih =>
    rw [List.map_cons, List.nodup_cons] at h
    obtain ⟨hg, hgs⟩ := h
    by_cases hk : g.full_address = k
    · have hrest : geoMatches gs k = [] := by
        rcases hr : geoMatches gs k with _ | ⟨e, es⟩
        · rfl
        · exfalso
          have he : e ∈ geoMatches gs k := by rw [hr]; exact List.mem_cons_self ..
          rw [geoMatches, List.mem_filter] at he
          obtain ⟨hmem, heq⟩ := he
          exact hg (List.mem_map.mpr ⟨e, hmem, by rw [beq_iff_eq] at heq; rw [heq, hk]⟩)
      rw [geoMatches_cons_pos g gs k hk, hrest]
      simp
    · rw [geoMatches_cons_neg g gs k hk]
      exact ih hgs

lemma enrichGroup_no_match (geo : List GeoRow) (r : IncidentRow)
    (h : geoMatches geo r.full_address = []) :
    enrichGroup geo r = [⟨r, none, none⟩] := by
  unfold enrichGroup
  rw [h]

lemma mem_enrichGroup_of_match (geo : List GeoRow) (r : IncidentRow) (g : GeoRow)
    (hg : g ∈ geoMatches geo r.full_address) :
    (⟨r, g.lat, g.lon⟩ : EnrichedRow) ∈ enrichGroup geo r := by
  unfold enrichGroup
  rcases hm : geoMatches geo r.full_address with _ | ⟨m, ms⟩
  · rw [hm] at hg; cases hg
  · rw [hm] at hg
    exact List.mem_map.mpr ⟨g, hg, rfl⟩

lemma length_enrichGroup (geo : List GeoRow) (r : IncidentRow)
    (h : (geoMatches geo r.full_address).length ≤ 1) :
    (enrichGroup geo r).length = 1 := by
  unfold enrichGroup
  rcases hm : geoMatches geo r.full_address with _ | ⟨g, gs⟩
  · rfl
  · rw [hm] at h
    simp only [List.length_cons] at h
    have hgs : gs = [] := List.length_eq_zero.mp (by omega)
    subst hgs
    rfl

lemma passesSpec_all_all (r : EnrichedRow) : passesSpec "All" "All" r = true := by
  simp [passesSpec]

lemma applyFilters_eq_filter (df : List EnrichedRow) (ct cc : String) :
    applyFilters df ct cc = df.filter (passesSpec ct cc) := by
  by_cases h1 : ct = "All" <;> by_cases h2 : cc = "All"
  · subst h1; subst h2
    simp only [applyFilters, ne_eq, not_true_eq_false, if_false]
    exact ((List.filter_congr fun a _ => passesSpec_all_all a).trans (List.filter_true df)).symm
  · subst h1
    have e2 : (cc == "All") = false := by simp [h2]
    simp [applyFilters, h2]
    exact List.filter_congr fun a _ => by simp [passesSpec, e2]
  · subst h2
    have e1 : (ct == "All") = false := by simp [h1]
    simp [applyFilters, h1]
    exact List.filter_congr fun a _ => by simp [passesSpec, e1]
  · have e1 : (ct == "All") = false := by simp [h1]
    have e2 : (cc == "All") = false := by simp [h2]
    simp [applyFilters, h1, h2, List.filter_filter]
    exact List.filter_congr fun a _ => by simp [passesSpec, e1, e2, Bool.and_comm]

/-! ### Claim theorems -/

/-- C1: the claim says a geocode table missing any of `full_address`, `lat`,
`lon` fails with the schema error naming the sorted set of missing columns.
The code normalizes `geo["full_address"]` (line 33) before the schema check
(lines 36-39), so a table without a `full_address` column fails with a
`KeyError` on that column instead of the schema error that the check in the
code was written to raise; with `full_address` present the schema error names the
sorted missing set, and with all three columns present only those three
columns are returned. -/
theorem C1_schema_check_preempted :
    load_geocodes ⟨["lat", "lon"], []⟩ = .error (.keyError "full_address") ∧
    load_geocodes ⟨["lat", "lon"], []⟩ ≠ .error (.schemaError ["full_address"]) ∧
    load_geocodes ⟨["full_address", "lat"], []⟩ = .error (.schemaError ["lon"]) ∧
    load_geocodes ⟨["full_address", "lat", "lon"], [exGeoRaw]⟩ = .ok [loadGeoRow exGeoRaw] := by
  refine ⟨rfl, ?_, rfl, rfl⟩
  intro h
  exact LoadError.noConfusion (Except.error.inj h)

/-- C2: for every loaded row whose `location_description`, `city`, `state`
cells hold strings, the derived `full_address` is exactly
`trim(location_description) ++ ", " ++ trim(city) ++ ", " ++ trim(state)`,
where trimming removes only leading/trailing whitespace and leaves the inner
characters (hence the case) of each field unchanged. -/
theorem C2_full_address_key (r : Row) (ls cs ss : String)
    (h1 : getCell r "location_description" = some ls)
    (h2 : getCell r "city" = some cs)
    (h3 : getCell r "state" = some ss) :
    (loadRow r).full_address = strip ls ++ ", " ++ strip cs ++ ", " ++ strip ss ∧
    TrimmedEnds ls (strip ls) ∧ TrimmedEnds cs (strip cs) ∧ TrimmedEnds ss (strip ss) := by
  refine ⟨by simp [loadRow, h1, h2, h3, cellToStr], ?_, ?_, ?_⟩ <;>
    first
    | exact (stripList_decomp ls.data).imp fun p h => h.imp fun q hq =>
        ⟨hq.1, hq.2.1, by rw [strip_data]; exact hq.2.2⟩
    | exact (stripList_decomp cs.data).imp fun p h => h.imp fun q hq =>
        ⟨hq.1, hq.2.1, by rw [strip_data]; exact hq.2.2⟩
    | exact (stripList_decomp ss.data).imp fun p h => h.imp fun q hq =>
        ⟨hq.1, hq.2.1, by rw [strip_data]; exact hq.2.2⟩

/-- Witness for C2 at a concrete whitespace-padded row. -/
theorem C2_full_address_key_witness :
    (loadRow exKeyRow).full_address = "123 Main St, Springfield, IL" :=
  ((C2_full_address_key exKeyRow "  123 Main St " "Springfield" " IL "
    rfl rfl rfl).1).trans (by decide)

/-- C3 counterexample: one incident row against two geocode entries sharing
its key yields two enriched rows, not one — the left join does not preserve
the row count when geocode keys are duplicated. -/
theorem C3_row_count_cx :
    (leftMerge [exIncident] [exGeoDup1, exGeoDup2]).length ≠
      ([exIncident] : List IncidentRow).length := by decide

/-- C3 (amended): when the geocode keys are pairwise distinct, the left join
preserves the incident row count exactly, regardless of coverage. -/
theorem C3_row_count (df : List IncidentRow) (geo : List GeoRow)
    (h : (geo.map GeoRow.full_address).Nodup) :
    (leftMerge df geo).length = df.length := by
  induction df with
  | nil => rfl
  | cons r df ih =>
    calc (leftMerge (r :: df) geo).length
        = (enrichGroup geo r).length + (leftMerge df geo).length := by
          simp [leftMerge]
    _ = 1 + df.length := by
          rw [length_enrichGroup geo r (length_geoMatches_le_one geo r.full_address h), ih]
    _ = df.length + 1 := Nat.add_comm ..

/-- Witness for C3 at a fully covered and a fully uncovered table. -/
theorem C3_row_count_witness :
    (leftMerge [exIncident, exIncident2] [exGeoDup1]).length =
      ([exIncident, exIncident2] : List IncidentRow).length :=
  C3_row_count [exIncident, exIncident2] [exGeoDup1] (by decide)

/-- C4 counterexample: with two geocode entries sharing the incident key,
the join does not produce the single first-match row — it also emits a row
populated from the second matching entry. -/
theorem C4_first_match_cx :
    leftMerge [exIncident] [exGeoDup1, exGeoDup2] ≠
      [⟨exIncident, exGeoDup1.lat, exGeoDup1.lon⟩] ∧
    (⟨exIncident, some "40.0", some "-90.0"⟩ : EnrichedRow) ∈
      leftMerge [exIncident] [exGeoDup1, exGeoDup2] := by decide

/-- C4 (amended): every incident row is preserved; a row with no matching
geocode entry appears with absent `lat`/`lon`; a row with matching entries
yields one output row per matching entry, populated from that entry
(duplicates fan out rather than first-match-wins). -/
theorem C4_join_population (df : List IncidentRow) (geo : List GeoRow)
    (r : IncidentRow) (g : GeoRow) (hr : r ∈ df) :
    (geoMatches geo r.full_address = [] →
      (⟨r, none, none⟩ : EnrichedRow) ∈ leftMerge df geo) ∧
    (g ∈ geoMatches geo r.full_address →
      (⟨r, g.lat, g.lon⟩ : EnrichedRow) ∈ leftMerge df geo) := by
  constructor
  · intro hm
    exact List.mem_flatMap.mpr ⟨r, hr, by rw [enrichGroup_no_match geo r hm]; exact List.mem_singleton.mpr rfl⟩
  · intro hg
    exact List.mem_flatMap.mpr ⟨r, hr, mem_enrichGroup_of_match geo r g hg⟩

/-- Witness for C4: an unmatched row appears with absent coordinates and a
matched row appears populated from its matching entry. -/
theorem C4_join_population_witness :
    (⟨exIncident2, none, none⟩ : EnrichedRow) ∈
      leftMerge [exIncident, exIncident2] [exGeoDup1] ∧
    (⟨exIncident, some "39.8", some "-89.6"⟩ : EnrichedRow) ∈
      leftMerge [exIncident, exIncident2] [exGeoDup1] :=
  ⟨(C4_join_population [exIncident, exIncident2] [exGeoDup1] exIncident2 exGeoDup1
      (by decide)).1 (by decide),
   (C4_join_population [exIncident, exIncident2] [exGeoDup1] exIncident exGeoDup1
      (by decide)).2 (by decide)⟩

/-- C5: the coverage partition is complete: a record is in `mapped_df` iff it
is a filtered record with both coordinates, in `unmapped_df` iff it is a
filtered record missing one, never in both, and the two lengths sum to the
filtered length. -/
theorem C5_partition_complete (f : List EnrichedRow) (r : EnrichedRow) :
    (r ∈ mapped_df f ↔ r ∈ f ∧ hasCoords r = true) ∧
    (r ∈ unmapped_df f ↔ r ∈ f ∧ hasCoords r = false) ∧
    ¬(r ∈ mapped_df f ∧ r ∈ unmapped_df f) ∧
    (mapped_df f).length + (unmapped_df f).length = f.length := by
  have hun : unmapped_df f = f.filter (fun r => !(hasCoords r)) := by
    refine List.filter_congr fun a _ => ?_
    simp [hasCoords]
  refine ⟨List.mem_filter, ?_, ?_, ?_⟩
  · rw [hun, List.mem_filter]
    simp
  · rintro ⟨hm, hu⟩
    have h1 := (List.mem_filter.mp hm).2
    rw [hun] at hu
    have h2 := (List.mem_filter.mp hu).2
    rw [h1] at h2
    cases h2
  · rw [hun]
    exact length_filter_add_length_filter_not hasCoords f

/-- Witness for C5 at a concrete two-row filtered set. -/
theorem C5_partition_complete_witness :
    (exEnr1 ∈ mapped_df [exEnr1, exEnr2] ↔
      exEnr1 ∈ [exEnr1, exEnr2] ∧ hasCoords exEnr1 = true) ∧
    (exEnr1 ∈ unmapped_df [exEnr1, exEnr2] ↔
      exEnr1 ∈ [exEnr1, exEnr2] ∧ hasCoords exEnr1 = false) ∧
    ¬(exEnr1 ∈ mapped_df [exEnr1, exEnr2] ∧ exEnr1 ∈ unmapped_df [exEnr1, exEnr2]) ∧
    (mapped_df [exEnr1, exEnr2]).length + (unmapped_df [exEnr1, exEnr2]).length =
      ([exEnr1, exEnr2] : List EnrichedRow).length :=
  C5_partition_complete [exEnr1, exEnr2] exEnr1

/-- C6: the sentinel pair `("All", "All")` leaves the enriched table
unchanged in rows and order. -/
theorem C6_all_identity (df : List EnrichedRow) :
    applyFilters df "All" "All" = df := by
  simp [applyFilters]

/-- Witness for C6 at a concrete two-row enriched table. -/
theorem C6_all_identity_witness :
    applyFilters [exEnr1, exEnr2] "All" "All" = [exEnr1, exEnr2] :=
  C6_all_identity [exEnr1, exEnr2]

/-- C7: the filter stage keeps exactly the records passing the conjunctive
`(selector = "All" or field = selector)` test for both fields (the
spec-side predicate `passesSpec`), is an order-preserving sublist of its
input, and is idempotent for a fixed selector pair; it is a pure function,
so determinism and absence of side effects are inherent. -/
theorem C7_filter_semantics (df : List EnrichedRow) (ct cc : String) :
    applyFilters df ct cc = df.filter (passesSpec ct cc) ∧
    List.Sublist (applyFilters df ct cc) df ∧
    applyFilters (applyFilters df ct cc) ct cc = applyFilters df ct cc := by
  refine ⟨applyFilters_eq_filter df ct cc, ?_, ?_⟩
  · rw [applyFilters_eq_filter df ct cc]
    exact List.filter_sublist df
  · rw [applyFilters_eq_filter df ct cc, applyFilters_eq_filter,
      List.filter_filter]
    exact List.filter_congr fun a _ => Bool.and_self ..

/-- Witness for C7 at a concrete table and selector pair. -/
theorem C7_filter_semantics_witness :
    applyFilters [exEnr1, exEnr2] "Theft" "All" =
      [exEnr1, exEnr2].filter (passesSpec "Theft" "All") ∧
    List.Sublist (applyFilters [exEnr1, exEnr2] "Theft" "All") [exEnr1, exEnr2] ∧
    applyFilters (applyFilters [exEnr1, exEnr2] "Theft" "All") "Theft" "All" =
      applyFilters [exEnr1, exEnr2] "Theft" "All" :=
  C7_filter_semantics [exEnr1, exEnr2] "Theft" "All"

/-- C8: given the five columns `load_data` reads, loading always succeeds —
the timestamp construction is total — and any row whose `date` or `time`
cell is missing gets a null timestamp; `toDatetimeCoerce` likewise maps any
unparseable combined string to `none` rather than failing. -/
theorem C8_datetime_leniency (t : RawTable) (r : Row)
    (h1 : "date" ∈ t.columns) (h2 : "time" ∈ t.columns)
    (h3 : "location_description" ∈ t.columns)
    (h4 : "city" ∈ t.columns) (h5 : "state" ∈ t.columns) :
    load_data t = .ok (t.rows.map loadRow) ∧
    ((getCell r "date" = none ∨ getCell r "time" = none) →
      (loadRow r).datetime = none) := by
  constructor
  · simp [load_data, h1, h2, h3, h4, h5]
  · rintro (h | h)
    · cases ht : getCell r "time" <;>
        simp [loadRow, combineDateTime, toDatetimeCoerce, h, ht]
    · cases hd : getCell r "date" <;>
        simp [loadRow, combineDateTime, toDatetimeCoerce, h, hd]

/-- Witness for C8: a table whose only row has a malformed `date` and a
blank `time` loads without error and carries a null timestamp. -/
theorem C8_datetime_leniency_witness :
    load_data exMalTable = .ok [loadRow exMalRow] ∧ (loadRow exMalRow).datetime = none :=
  ⟨(C8_datetime_leniency exMalTable exMalRow (by decide) (by decide) (by decide)
      (by decide) (by decide)).1,
   (C8_datetime_leniency exMalTable exMalRow (by decide) (by decide) (by decide)
      (by decide) (by decide)).2 (Or.inr rfl)⟩

/-- C9 counterexample: a geocode entry with a present `lat` cell and a blank
`lon` cell produces a matched enriched row whose `lat` is present while its
`lon` is absent — the both-or-neither invariant fails on such an input. -/
theorem C9_pairing_cx :
    leftMerge [exIncident] [exGeoHalf] = [⟨exIncident, some "39.8", none⟩] ∧
    (⟨exIncident, some "39.8", none⟩ : EnrichedRow).lat.isSome = true ∧
    (⟨exIncident, some "39.8", none⟩ : EnrichedRow).lon.isSome = false := by decide

/-- C9 (amended): when every geocode entry carries both coordinates, each
enriched record has `lat` and `lon` both present or both absent, and they
are absent exactly when no geocode entry matches its `full_address`. -/
theorem C9_coord_pairing (df : List IncidentRow) (geo : List GeoRow)
    (e : EnrichedRow)
    (hg : ∀ g ∈ geo, g.lat.isSome = true ∧ g.lon.isSome = true)
    (he : e ∈ leftMerge df geo) :
    (e.lat.isSome = true ↔ e.lon.isSome = true) ∧
    (e.lat = none ↔ geoMatches geo e.inc.full_address = []) := by
  obtain ⟨r, hr, hmem⟩ := List.mem_flatMap.mp he
  unfold enrichGroup at hmem
  rcases hm : geoMatches geo r.full_address with _ | ⟨m, ms⟩
  · rw [hm] at hmem
    simp only [List.mem_singleton] at hmem
    subst hmem
    simp [hm]
  · rw [hm] at hmem
    obtain ⟨g, hgmem, hge⟩ := List.mem_map.mp hmem
    subst hge
    have hgeo : g ∈ geo := by
      have hgm : g ∈ geoMatches geo r.full_address := by rw [hm]; exact hgmem
      exact (List.mem_filter.mp hgm).1
    obtain ⟨hl, ho⟩ := hg g hgeo
    refine ⟨by simp [hl, ho], iff_of_false ?_ ?_⟩
    · intro hnone
      have hn : g.lat = none := hnone
      rw [hn] at hl
      cases hl
    · intro hcons
      rw [show (⟨r, g.lat, g.lon⟩ : EnrichedRow).inc = r from rfl, hm] at hcons
      cases hcons

/-- Witness for C9 at a fully coordinated geocode table. -/
theorem C9_coord_pairing_witness :
    ((⟨exIncident, some "39.8", some "-89.6"⟩ : EnrichedRow).lat.isSome = true ↔
      (⟨exIncident, some "39.8", some "-89.6"⟩ : EnrichedRow).lon.isSome = true) ∧
    ((⟨exIncident, some "39.8", some "-89.6"⟩ : EnrichedRow).lat = none ↔
      geoMatches [exGeoDup1]
        (⟨exIncident, some "39.8", some "-89.6"⟩ : EnrichedRow).inc.full_address = []) :=
  C9_coord_pairing [exIncident] [exGeoDup1]
    ⟨exIncident, some "39.8", some "-89.6"⟩ (by decide) (by decide)

/-- C10: a row with a blank `location_description`, `city` or `state` cell
still receives a total, non-null string join key: the blank cell renders as
the literal text `nan` (pandas `astype(str)` of `NaN`), which survives
trimming, so the key contains `nan` as a contiguous segment. -/
theorem C10_nan_key (r : Row)
    (h : getCell r "location_description" = none ∨ getCell r "city" = none ∨
      getCell r "state" = none) :
    containsSeq "nan".data (loadRow r).full_address.data = true := by
  have hnan : strip (cellToStr (none : Cell)) = "nan" := by decide
  rcases h with h | h | h
  · have hfa : (loadRow r).full_address.data =
        "nan".data ++ (", ".data ++ ((strip (cellToStr (getCell r "city"))).data ++
          (", ".data ++ (strip (cellToStr (getCell r "state"))).data))) := by
      simp [loadRow, h, hnan, data_append, List.append_assoc]
    rw [hfa, ← List.append_assoc]
    exact containsSeq_self_append ..
  · have hfa : (loadRow r).full_address.data =
        (strip (cellToStr (getCell r "location_description"))).data ++
          (", ".data ++ ("nan".data ++ (", ".data ++
            (strip (cellToStr (getCell r "state"))).data))) := by
      simp [loadRow, h, hnan, data_append, List.append_assoc]
    rw [hfa]
    refine containsSeq_append_left _ _ _ (containsSeq_append_left _ _ _ ?_)
    rw [← List.append_assoc]
    exact containsSeq_self_append ..
  · have hfa : (loadRow r).full_address.data =
        (strip (cellToStr (getCell r "location_description"))).data ++
          (", ".data ++ ((strip (cellToStr (getCell r "city"))).data ++
            (", ".data ++ "nan".data))) := by
      simp [loadRow, h, hnan, data_append, List.append_assoc]
    rw [hfa]
    refine containsSeq_append_left _ _ _ (containsSeq_append_left _ _ _
      (containsSeq_append_left _ _ _ (containsSeq_append_left _ _ _ ?_)))
    simpa using containsSeq_self_append "nan".data []

/-- Witness for C10 at a row whose `state` cell is blank. -/
theorem C10_nan_key_witness :
    containsSeq "nan".data (loadRow exNanRow).full_address.data = true :=
  C10_nan_key exNanRow (Or.inr (Or.inr rfl))

end CrimeData
